import Mathlib

/-
Shallow embedding of the lightning-donation-platform repository
(src/backend/py/lnd_client.py and src/backend/py/create_invoice.py).

Bytes are modelled as natural numbers below 256 in lists.  The file system
is modelled as a map from paths to a three-valued file state: absent,
present but unreadable, or readable with the given byte contents; the
distinction matters because the requests cert_verify step only checks
existence, so an existing-but-unreadable certificate file fails after the
connection attempt rather than before it.  The network is an oracle
mapping a request to either a parsed-JSON response or a transport failure;
response bodies are modelled as parsed JSON values whose text form is
their serialization.
-/

/-! ## Byte and hex helpers (codecs.encode(_, "hex"), bytes.hex()) -/

def hexDigit (n : Nat) : Char :=
  if n < 10 then Char.ofNat (48 + n) else Char.ofNat (87 + n)

def hexByte (b : Nat) : String :=
  String.mk [hexDigit (b / 16), hexDigit (b % 16)]

/-- Lowercase hexadecimal encoding of a byte list, as produced by Python
codecs.encode(bytes, "hex") and bytes.hex(). -/
def hexEncode (bytes : List Nat) : String :=
  String.join (bytes.map hexByte)

/-! ## Base64 (Python base64.b64encode / base64.b64decode) -/

/-- Character of the standard base64 alphabet at index n (n < 64). -/
def b64Char (n : Nat) : Char :=
  if n < 26 then Char.ofNat (65 + n)
  else if n < 52 then Char.ofNat (97 + (n - 26))
  else if n < 62 then Char.ofNat (48 + (n - 52))
  else if n = 62 then '+'
  else '/'

/-- Index of a character in the standard base64 alphabet, none for
non-alphabet characters (including the padding character). -/
def b64v (c : Char) : Option Nat :=
  let n := c.toNat
  if 65 ≤ n ∧ n ≤ 90 then some (n - 65)
  else if 97 ≤ n ∧ n ≤ 122 then some (n - 97 + 26)
  else if 48 ≤ n ∧ n ≤ 57 then some (n - 48 + 52)
  else if n = 43 then some 62
  else if n = 47 then some 63
  else none

/-- Base64 encoding of a byte list, three bytes to four characters with
trailing padding, as base64.b64encode does. -/
def b64encodeList : List Nat → List Char
  | [] => []
  | [a] => [b64Char (a / 4), b64Char (a % 4 * 16), '=', '=']
  | [a, b] => [b64Char (a / 4), b64Char (a % 4 * 16 + b / 16), b64Char (b % 16 * 4), '=']
  | a :: b :: c :: rest =>
      b64Char (a / 4) :: b64Char (a % 4 * 16 + b / 16) ::
      b64Char (b % 16 * 4 + c / 64) :: b64Char (c % 64) :: b64encodeList rest

def b64encodeStr (bytes : List Nat) : String :=
  String.mk (b64encodeList bytes)

/-- Group-wise base64 decoding over a character list that contains only
alphabet characters and padding, following binascii.a2b_base64 in its
default non-strict mode: decoding stops at the first padded group and
discards anything after it; a group cut short by the end of the input or
padded after one data character is an error.  A character outside the
alphabet plays the role of the padding character, which is the only
non-alphabet character left after filtering. -/
def b64decodeGroups : List Char → Option (List Nat)
  | [] => some []
  | a :: rest1 =>
    match b64v a with
    | none => some []
    | some va =>
      match rest1 with
      | [] => none
      | b :: rest2 =>
        match b64v b with
        | none => none
        | some vb =>
          match rest2 with
          | [] => none
          | c :: rest3 =>
            match b64v c with
            | none =>
              match rest3 with
              | [] => none
              | d :: _ =>
                match b64v d with
                | none => some [va * 4 + vb / 16]
                | some _ => none
            | some vc =>
              match rest3 with
              | [] => none
              | d :: rest4 =>
                match b64v d with
                | none => some [va * 4 + vb / 16, vb % 16 * 16 + vc / 4]
                | some vd =>
                  match b64decodeGroups rest4 with
                  | some t =>
                      some ((va * 4 + vb / 16) :: (vb % 16 * 16 + vc / 4) ::
                            (vc % 4 * 64 + vd) :: t)
                  | none => none

def isB64OrPad (c : Char) : Bool :=
  (b64v c).isSome || c == '='

/-- Python base64.b64decode with validate=False: characters outside the
alphabet and padding are discarded first, then groups are decoded.
Returns none where Python raises binascii.Error. -/
def b64decode (s : String) : Option (List Nat) :=
  b64decodeGroups (s.toList.filter isB64OrPad)

/-! ## Python int() on strings -/

def digitsToNat (l : List Char) : Option Nat :=
  if l.isEmpty then none
  else l.foldl
    (fun acc c =>
      match acc with
      | none => none
      | some n => if c.isDigit then some (n * 10 + (c.toNat - 48)) else none)
    (some 0)

/-- Whitespace stripping from both ends, as Python str.strip does before
int() parses a literal. -/
def stripWs (l : List Char) : List Char :=
  ((l.dropWhile Char.isWhitespace).reverse.dropWhile Char.isWhitespace).reverse

/-- Embedding of Python int() applied to a string: optional surrounding
whitespace, an optional sign, then decimal digits.  Underscore digit
separators, which Python also accepts between digits, are not modelled;
no claim exercises them. -/
def pyIntParse (s : String) : Option Int :=
  match stripWs s.toList with
  | '+' :: ds => (digitsToNat ds).map (fun n => (n : Int))
  | '-' :: ds => (digitsToNat ds).map (fun n => -(n : Int))
  | ds => (digitsToNat ds).map (fun n => (n : Int))

/-! ## JSON values and json.dumps -/

inductive JVal where
  | str (s : String)
  | num (n : Int)
  | null
  | obj (fields : List (String × JVal))

/-- Minimal JSON string escaping (quote, backslash and the common control
characters); the strings this program serializes contain none of them. -/
def jsonEscapeChar (c : Char) : String :=
  if c == '"' then "\\\""
  else if c == '\\' then "\\\\"
  else if c == '\n' then "\\n"
  else if c == '\t' then "\\t"
  else if c == '\r' then "\\r"
  else String.mk [c]

def jsonEscape (s : String) : String :=
  String.join (s.toList.map jsonEscapeChar)

mutual

/-- Python json.dumps with its default separators. -/
def dumps : JVal → String
  | .str s => "\"" ++ jsonEscape s ++ "\""
  | .num n => toString n
  | .null => "null"
  | .obj fields => "\x7b" ++ dumpsFields fields ++ "\x7d"

def dumpsFields : List (String × JVal) → String
  | [] => ""
  | [(k, v)] => "\"" ++ jsonEscape k ++ "\": " ++ dumps v
  | (k, v) :: rest => "\"" ++ jsonEscape k ++ "\": " ++ dumps v ++ ", " ++ dumpsFields rest

end

def lookupField : List (String × JVal) → String → Option JVal
  | [], _ => none
  | (k, v) :: rest, key => if k = key then some v else lookupField rest key

/-! ## Python exceptions raised along the modelled control flow -/

inductive PyExc where
  | fsError (path : String)
  | permissionError (path : String)
  | certBundleError (path : String)
  | connectionError (msg : String)
  | sslError (path : String)
  | httpError (status : Nat) (bodyText : String)
  | unboundLocal (name : String)
  | eofError
  | keyError (k : String)
  | typeError (msg : String)
  | attributeError (msg : String)
  | binasciiError
deriving DecidableEq

/-- Which of the modelled exceptions are requests.exceptions.RequestException
subclasses, the only class the _request handler catches; the SSLError raised
while setting up TLS (for instance because the CA certificate file could not
be read) is one of them. -/
def PyExc.isRequestException : PyExc → Bool
  | .connectionError _ => true
  | .sslError _ => true
  | .httpError _ _ => true
  | _ => false

/-- Which of the modelled exceptions are filesystem errors (OSError family:
FileNotFoundError and PermissionError from open(), and the OSError that
requests raises for a nonexistent verify path). -/
def PyExc.isFilesystemError : PyExc → Bool
  | .fsError _ => true
  | .permissionError _ => true
  | .certBundleError _ => true
  | _ => false

/-- Rendering of str(e); the exact message texts are not part of any claim,
only which exception class reaches the caller. -/
def PyExc.message : PyExc → String
  | .fsError p => "[Errno 2] No such file or directory: " ++ p
  | .permissionError p => "[Errno 13] Permission denied: " ++ p
  | .certBundleError p => "Could not find a suitable TLS CA certificate bundle, invalid path: " ++ p
  | .connectionError m => m
  | .sslError p => "SSLError while loading the CA certificate file " ++ p
  | .httpError st _ => toString st ++ " Error for url"
  | .unboundLocal n => "local variable " ++ n ++ " referenced before assignment"
  | .eofError => "EOF when reading a line"
  | .keyError k => k
  | .typeError m => m
  | .attributeError m => m
  | .binasciiError => "Invalid base64-encoded string"

/-! ## The environment: file system, network, third-party QR pipeline -/

/-- An HTTP response, with its body modelled as parsed JSON; the text of
the body is its serialization. -/
structure HttpResponse where
  status : Nat
  body : JVal

inductive NetOutcome where
  | response (r : HttpResponse)
  | connectionFailure (msg : String)

/-- Observable side effects: an existence check on a path, opening a file
for reading, and attempting a network request. -/
inductive Event where
  | statFile (path : String)
  | fileRead (path : String)
  | netCall (method : String) (url : String) (payload : Option JVal)

/-- The state of a path on disk: absent, present but not readable by the
process, or readable with the given contents. -/
inductive FileState where
  | absent
  | unreadable
  | readable (bytes : List Nat)
deriving DecidableEq

structure World where
  fs : String → FileState
  net : String → String → Option JVal → NetOutcome
  qrPng : String → List Nat

/-! ## LNDClient (src/backend/py/lnd_client.py) -/

structure Client where
  cert_path : String
  macaroon_path : String
  api_endpoint : String

/-- LNDClient.__init__: paths from environment overrides with defaults under
the config directory next to the script (the directory itself is a
parameter, since the script location is not part of the model). -/
def LNDClient.init (env : String → Option String) (config_path : String) : Client :=
  { cert_path := (env "LND_CERT_PATH").getD (config_path ++ "/tls.cert")
    macaroon_path := (env "LND_MACAROON_PATH").getD (config_path ++ "/admin.macaroon")
    api_endpoint := (env "LND_REST_API").getD "https://127.0.0.1:8083" }

/-- LNDClient.get_headers: reads the macaroon bytes and hex-encodes them into
the authentication header.  A missing file is a FileNotFoundError and an
unreadable one a PermissionError from open(), either returned before
anything else happens. -/
def get_headers (c : Client) (w : World) :
    Except PyExc (List (String × String)) × List Event :=
  match w.fs c.macaroon_path with
  | .absent => (.error (.fsError c.macaroon_path), [.fileRead c.macaroon_path])
  | .unreadable => (.error (.permissionError c.macaroon_path), [.fileRead c.macaroon_path])
  | .readable bytes =>
      (.ok [("Grpc-Metadata-macaroon", hexEncode bytes)], [.fileRead c.macaroon_path])

/-- requests.request(method, url, json=data, headers=headers, verify=cert).
The cert_verify step of requests only checks that the verify path exists
(os.path.exists), raising an OSError, not a RequestException, before any
network activity when the path is absent.  With an existing path the
connection is attempted first; a certificate file that exists but cannot be
read only fails afterwards, while the TLS layer loads the CA file, and that
failure surfaces as requests.exceptions.SSLError, which is a
RequestException.  For a readable certificate the oracle decides the
outcome of the attempt. -/
def requests_request (w : World) (method url : String) (data : Option JVal)
    (verify : String) : Except PyExc HttpResponse × List Event :=
  match w.fs verify with
  | .absent => (.error (.certBundleError verify), [.statFile verify])
  | .unreadable =>
      (.error (.sslError verify),
       [.statFile verify, .netCall method url data, .fileRead verify])
  | .readable _ =>
      match w.net method url data with
      | .response r =>
          (.ok r, [.statFile verify, .netCall method url data, .fileRead verify])
      | .connectionFailure m =>
          (.error (.connectionError m), [.statFile verify, .netCall method url data])

/-- response.raise_for_status: raises HTTPError exactly for status codes in
the 4xx and 5xx ranges. -/
def raise_for_status (r : HttpResponse) : Except PyExc Unit :=
  if 400 ≤ r.status ∧ r.status < 600 then .error (.httpError r.status (dumps r.body))
  else .ok ()

/-- LNDClient._request.  The result carries the returned JSON or the raised
exception, the side-effect events, and the stderr lines the handler prints.
The except clause catches RequestException only; inside it, the local
variable named response is unbound whenever requests.request itself raised,
so evaluating the condition of the guard raises UnboundLocalError there. -/
def _request (c : Client) (w : World) (method endpoint : String)
    (data : Option JVal) : Except PyExc JVal × List Event × List String :=
  let url := c.api_endpoint ++ endpoint
  match get_headers c w with
  | (.error e, ev) => (.error e, ev, [])
  | (.ok _, ev1) =>
      match requests_request w method url data c.cert_path with
      | (.error e, ev2) =>
          if e.isRequestException then
            (.error (.unboundLocal "response"), ev1 ++ ev2,
             ["Error connecting to LND: " ++ e.message])
          else
            (.error e, ev1 ++ ev2, [])
      | (.ok r, ev2) =>
          match raise_for_status r with
          | .error e =>
              (.error e, ev1 ++ ev2,
               ["Error connecting to LND: " ++ e.message, "Response: " ++ dumps r.body])
          | .ok _ => (.ok r.body, ev1 ++ ev2, [])

/-- LNDClient.get_info. -/
def get_info (c : Client) (w : World) : Except PyExc JVal × List Event × List String :=
  _request c w "GET" "/v1/getinfo" none

/-- LNDClient.add_invoice. -/
def add_invoice (c : Client) (w : World) (amount : Int) (memo : String) :
    Except PyExc JVal × List Event × List String :=
  _request c w "POST" "/v1/invoices"
    (some (.obj [("value", .num amount), ("memo", .str memo)]))

/-- LNDClient.generate_qr_base64: the QR matrix construction and PNG
rasterization happen inside the third-party qrcode and PIL libraries,
modelled as the environment function qrPng; the client then base64-encodes
the PNG bytes. -/
def generate_qr_base64 (w : World) (data : String) : String :=
  b64encodeStr (w.qrPng data)

/-- The network-request events among a trace. -/
def netCalls (evs : List Event) : List Event :=
  evs.filter fun e =>
    match e with
    | .netCall _ _ _ => true
    | _ => false

/-! ## Python dictionary operations on JSON values -/

/-- d.get(key, default): only dictionaries have a get method. -/
def pyDictGet (v : JVal) (k : String) (dflt : JVal) : Except PyExc JVal :=
  match v with
  | .obj fields => .ok ((lookupField fields k).getD dflt)
  | _ => .error (.attributeError "object has no attribute get")

/-- d[key]: KeyError for an absent key, TypeError on a non-dictionary. -/
def pySubscript (v : JVal) (k : String) : Except PyExc JVal :=
  match v with
  | .obj fields =>
      match lookupField fields k with
      | some x => .ok x
      | none => .error (.keyError k)
  | _ => .error (.typeError "object is not subscriptable")

def setField : List (String × JVal) → String → JVal → List (String × JVal)
  | [], k, v => [(k, v)]
  | (k0, v0) :: rest, k, v =>
      if k0 = k then (k0, v) :: rest else (k0, v0) :: setField rest k v

/-- d[key] = value on a dictionary: overwrite in place or append a new key. -/
def pySetItem (v : JVal) (k : String) (x : JVal) : JVal :=
  match v with
  | .obj fields => .obj (setField fields k x)
  | other => other

/-- Python truthiness of a JSON value (None, empty string, zero and the
empty object are falsy). -/
def pyTruthyJ : JVal → Bool
  | .null => false
  | .str s => !(s == "")
  | .num n => !(n == 0)
  | .obj fields => !fields.isEmpty

/-- str() of a JSON value as used inside f-strings; only strings and
numbers are exercised by the programs. -/
def pyStrOfJ : JVal → String
  | .str s => s
  | .num n => toString n
  | .null => "None"
  | .obj _ => "dict"

/-- Python truthiness of the parsed optional integer argument: the check
`if not args.amount` treats both an absent argument and an explicit zero
as falsy. -/
def pyTruthyOptInt : Option Int → Bool
  | none => false
  | some v => !(v == 0)

/-! ## JSON CLI entry point (the __main__ block of lnd_client.py) -/

structure CliArgs where
  command : String
  amount : Option Int
  memo : String

structure CliResult where
  stdout : List String
  exitCode : Nat
  events : List Event

/-- The __main__ block of lnd_client.py after argparse succeeded: dispatch
on the subcommand, with the invoice branch requiring a truthy amount
before any client call, and a generic except clause turning any exception
into a JSON error object with exit status 1. -/
def lnd_cli_main (args : CliArgs) (env : String → Option String)
    (config_path : String) (w : World) : CliResult :=
  let c := LNDClient.init env config_path
  if args.command = "info" then
    match get_info c w with
    | (.ok info, ev, _) => ⟨[dumps info], 0, ev⟩
    | (.error e, ev, _) => ⟨[dumps (.obj [("error", .str e.message)])], 1, ev⟩
  else if args.command = "invoice" then
    if pyTruthyOptInt args.amount = false then
      ⟨[dumps (.obj [("error", .str "Amount is required for invoice")])], 1, []⟩
    else
      match add_invoice c w (args.amount.getD 0) args.memo with
      | (.error e, ev, _) => ⟨[dumps (.obj [("error", .str e.message)])], 1, ev⟩
      | (.ok invoice, ev, _) =>
          match pyDictGet invoice "payment_request" .null with
          | .error e => ⟨[dumps (.obj [("error", .str e.message)])], 1, ev⟩
          | .ok pr =>
              if pyTruthyJ pr then
                let qr := generate_qr_base64 w (pyStrOfJ pr)
                ⟨[dumps (pySetItem invoice "qr_code_base64" (.str qr))], 0, ev⟩
              else
                ⟨[dumps (.obj [("error",
                    .str "Failed to get payment request from LND response"),
                    ("response", invoice)])], 1, ev⟩
  else
    ⟨[], 0, []⟩

/-! ## Interactive tool (create_invoice.py) -/

structure InvArgs where
  amount : Option Int
  memo : Option String

/-- The memo prompt: taken from the argument when present, otherwise read
from standard input, where end of input raises EOFError outside any
handler.  Returns the resolved pair and the remaining input. -/
def resolveMemo (a : Int) (memo : Option String) (stdin : List String) :
    Except PyExc (Option (Int × String) × List String × List String) :=
  match memo with
  | some m => .ok (some (a, m), [], stdin)
  | none =>
      match stdin with
      | [] => .error .eofError
      | m :: rest => .ok (some (a, m), [], rest)

/-- The prompting phase of create_invoice.main: resolve the amount (an
empty line or a non-numeric line is handled locally and returns early with
a message, while end of input raises EOFError because the local handler
catches ValueError only), then resolve the memo.  The first component is
none on an early return; the middle component collects the printed lines. -/
def promptPhase (args : InvArgs) (stdin : List String) :
    Except PyExc (Option (Int × String) × List String × List String) :=
  match args.amount with
  | some a => resolveMemo a args.memo stdin
  | none =>
      match stdin with
      | [] => .error .eofError
      | val :: rest =>
          if val = "" then .ok (none, ["Amount is required."], rest)
          else
            match pyIntParse val with
            | none => .ok (none, ["Invalid amount."], rest)
            | some a => resolveMemo a args.memo rest

/-- json value to bytes via base64, as the line
base64.b64decode(invoice["r_hash"]) behaves: TypeError on a non-string,
binascii.Error on invalid base64. -/
def pyB64decodeExc : JVal → Except PyExc (List Nat)
  | .str s =>
      match b64decode s with
      | some bytes => .ok bytes
      | none => .error .binasciiError
  | _ => .error (.typeError "argument should be a bytes-like object or ASCII string")

/-- The body of the try block of create_invoice.main: connect, create the
invoice, decode the hash and print the summary.  Returns the lines printed
before any exception together with the exception, if one was raised. -/
def invoiceFlow (amount : Int) (memo : String) (env : String → Option String)
    (config_path : String) (w : World) : List String × Option PyExc :=
  let c := LNDClient.init env config_path
  match get_info c w with
  | (.error e, _, _) => ([], some e)
  | (.ok info, _, _) =>
      match pyDictGet info "alias" (.str "unknown") with
      | .error e => ([], some e)
      | .ok al =>
          let l1 := "Connected to LND node: " ++ pyStrOfJ al
          let l2 := "Creating invoice for " ++ toString amount ++ " sats..."
          match add_invoice c w amount memo with
          | (.error e, _, _) => ([l1, l2], some e)
          | (.ok invoice, _, _) =>
              let l3 := "\n=== INVOICE CREATED ==="
              match pySubscript invoice "payment_request" with
              | .error e => ([l1, l2, l3], some e)
              | .ok pr =>
                  let l4 := "Payment Request: " ++ pyStrOfJ pr
                  match pySubscript invoice "r_hash" with
                  | .error e => ([l1, l2, l3, l4], some e)
                  | .ok rh =>
                      match pyB64decodeExc rh with
                      | .error e => ([l1, l2, l3, l4], some e)
                      | .ok bytes =>
                          let l5 := "R Hash (hex):    " ++ hexEncode bytes
                          match pyDictGet invoice "add_index" (.str "N/A") with
                          | .error e => ([l1, l2, l3, l4, l5], some e)
                          | .ok ai =>
                              ([l1, l2, l3, l4, l5,
                                "Add Index:       " ++ pyStrOfJ ai,
                                "======================="], none)

/-- create_invoice.main: the prompting phase runs before the try block, so
only its ValueError is handled; the try block around the client calls
catches every exception and prints a generic message.  The second
component is an exception that escaped main uncaught. -/
def create_invoice_main (args : InvArgs) (stdin : List String)
    (env : String → Option String) (config_path : String) (w : World) :
    List String × Option PyExc :=
  match promptPhase args stdin with
  | .error e => ([], some e)
  | .ok (none, printed, _) => (printed, none)
  | .ok (some (amt, memo), printed, _) =>
      match invoiceFlow amt memo env config_path w with
      | (lines, none) => (printed ++ lines, none)
      | (lines, some e) =>
          (printed ++ lines ++
           ["\nError: " ++ e.message,
            "Make sure your LND node is running and lnd_client.py determines the correct paths."],
           none)

structure RunResult where
  stdout : List String
  exitCode : Nat

/-- Running create_invoice.py as a script: a normal return of main exits
with status 0; an exception escaping main makes the interpreter print a
traceback and exit with status 1. -/
def createInvoiceRun (args : InvArgs) (stdin : List String)
    (env : String → Option String) (config_path : String) (w : World) : RunResult :=
  match create_invoice_main args stdin env config_path w with
  | (out, none) => ⟨out, 0⟩
  | (out, some _) => ⟨out, 1⟩

def isOkE (e : Except PyExc (Option (Int × String) × List String × List String)) : Bool :=
  match e with
  | .ok _ => true
  | .error _ => false

/-! ## Base64 round-trip lemmas -/

theorem b64v_b64Char : ∀ n, n < 64 → b64v (b64Char n) = some n := by decide

theorem b64v_pad : b64v '=' = none := by decide

theorem isB64OrPad_b64Char : ∀ n, n < 64 → isB64OrPad (b64Char n) = true := by decide

theorem isB64OrPad_pad : isB64OrPad '=' = true := by decide

theorem filter_b64encode :
    ∀ l : List Nat, (∀ x ∈ l, x < 256) →
      (b64encodeList l).filter isB64OrPad = b64encodeList l
  | [], _ => rfl
  | [a], h => by
      have ha : a < 256 := h a (by simp)
      simp [b64encodeList, List.filter,
        isB64OrPad_b64Char _ (by omega : a / 4 < 64),
        isB64OrPad_b64Char _ (by omega : a % 4 * 16 < 64), isB64OrPad_pad]
  | [a, b], h => by
      have ha : a < 256 := h a (by simp)
      have hb : b < 256 := h b (by simp)
      simp [b64encodeList, List.filter,
        isB64OrPad_b64Char _ (by omega : a / 4 < 64),
        isB64OrPad_b64Char _ (by omega : a % 4 * 16 + b / 16 < 64),
        isB64OrPad_b64Char _ (by omega : b % 16 * 4 < 64), isB64OrPad_pad]
  | a :: b :: c :: rest, h => by
      have ha : a < 256 := h a (by simp)
      have hb : b < 256 := h b (by simp)
      have hc : c < 256 := h c (by simp)
      have ih := filter_b64encode rest (fun x hx => h x (by simp [hx]))
      simp [b64encodeList, List.filter,
        isB64OrPad_b64Char _ (by omega : a / 4 < 64),
        isB64OrPad_b64Char _ (by omega : a % 4 * 16 + b / 16 < 64),
        isB64OrPad_b64Char _ (by omega : b % 16 * 4 + c / 64 < 64),
        isB64OrPad_b64Char _ (by omega : c % 64 < 64), ih]

theorem b64decodeGroups_encode :
    ∀ l : List Nat, (∀ x ∈ l, x < 256) →
      b64decodeGroups (b64encodeList l) = some l
  | [], _ => rfl
  | [a], h => by
      have ha : a < 256 := h a (by simp)
      simp only [b64encodeList, b64decodeGroups,
        b64v_b64Char _ (by omega : a / 4 < 64),
        b64v_b64Char _ (by omega : a % 4 * 16 < 64), b64v_pad]
      rw [show a / 4 * 4 + a % 4 * 16 / 16 = a by omega]
  | [a, b], h => by
      have ha : a < 256 := h a (by simp)
      have hb : b < 256 := h b (by simp)
      simp only [b64encodeList, b64decodeGroups,
        b64v_b64Char _ (by omega : a / 4 < 64),
        b64v_b64Char _ (by omega : a % 4 * 16 + b / 16 < 64),
        b64v_b64Char _ (by omega : b % 16 * 4 < 64), b64v_pad]
      rw [show a / 4 * 4 + (a % 4 * 16 + b / 16) / 16 = a by omega,
          show (a % 4 * 16 + b / 16) % 16 * 16 + b % 16 * 4 / 4 = b by omega]
  | a :: b :: c :: rest, h => by
      have ha : a < 256 := h a (by simp)
      have hb : b < 256 := h b (by simp)
      have hc : c < 256 := h c (by simp)
      have ih := b64decodeGroups_encode rest (fun x hx => h x (by simp [hx]))
      simp only [b64encodeList, b64decodeGroups,
        b64v_b64Char _ (by omega : a / 4 < 64),
        b64v_b64Char _ (by omega : a % 4 * 16 + b / 16 < 64),
        b64v_b64Char _ (by omega : b % 16 * 4 + c / 64 < 64),
        b64v_b64Char _ (by omega : c % 64 < 64), ih]
      rw [show a / 4 * 4 + (a % 4 * 16 + b / 16) / 16 = a by omega,
          show (a % 4 * 16 + b / 16) % 16 * 16 + (b % 16 * 4 + c / 64) / 4 = b by omega,
          show (b % 16 * 4 + c / 64) % 4 * 64 + c % 64 = c by omega]

/-- Decoding the base64 encoding of any byte list gives the bytes back. -/
theorem b64decode_encode (l : List Nat) (h : ∀ x ∈ l, x < 256) :
    b64decode (b64encodeStr l) = some l := by
  show b64decodeGroups ((b64encodeList l).filter isB64OrPad) = some l
  rw [filter_b64encode l h, b64decodeGroups_encode l h]

/-! ## Concrete environments used by witnesses and counterexamples -/

def envNone : String → Option String := fun _ => none

def clientD : Client := LNDClient.init envNone "cfg"

def fsBoth : String → FileState := fun p =>
  if p = "cfg/tls.cert" then .readable [10]
  else if p = "cfg/admin.macaroon" then .readable [1, 2]
  else .absent

def fsNone : String → FileState := fun _ => .absent

def fsCertUnreadable : String → FileState := fun p =>
  if p = "cfg/tls.cert" then .unreadable
  else if p = "cfg/admin.macaroon" then .readable [1, 2]
  else .absent

def wConnRefused : World :=
  ⟨fsBoth, fun _ _ _ => .connectionFailure "Connection refused", fun _ => []⟩

def w304 : World :=
  ⟨fsBoth, fun _ _ _ => .response ⟨304, .obj []⟩, fun _ => []⟩

def w404 : World :=
  ⟨fsBoth, fun _ _ _ => .response ⟨404, .obj [("message", .str "not found")]⟩, fun _ => []⟩

def wNoFiles : World :=
  ⟨fsNone, fun _ _ _ => .response ⟨200, .obj []⟩, fun _ => []⟩

def wCertUnreadable : World :=
  ⟨fsCertUnreadable, fun _ _ _ => .response ⟨200, .obj []⟩, fun _ => []⟩

def infoBodyMock : JVal := .obj [("alias", .str "testnode"), ("version", .str "0.17")]

def invoiceBodyMock : JVal :=
  .obj [("payment_request", .str "lnbc1..."), ("r_hash", .str "AAECAw==")]

def wMock : World :=
  ⟨fsBoth,
   fun method url _ =>
     if method = "GET" ∧ url = "https://127.0.0.1:8083/v1/getinfo" then
       .response ⟨200, infoBodyMock⟩
     else if method = "POST" ∧ url = "https://127.0.0.1:8083/v1/invoices" then
       .response ⟨200, invoiceBodyMock⟩
     else .connectionFailure "unexpected request",
   fun _ => []⟩

/-! ## Claims -/

/-- C2: invoking the JSON CLI with subcommand invoice and no amount prints a
single JSON object with an error key to standard output, exits with status
1, and performs no network request and no credential-file read. -/
theorem json_cli_invoice_missing_amount (env : String → Option String)
    (config_path : String) (w : World) (memo : String) :
    lnd_cli_main ⟨"invoice", none, memo⟩ env config_path w =
      ⟨[dumps (.obj [("error", .str "Amount is required for invoice")])], 1, []⟩ := rfl

/-- C10: an explicit amount of 0 is treated exactly like an omitted amount
by the truthiness check: same JSON error object, exit status 1, and no
network or file event. -/
theorem json_cli_invoice_zero_amount (env : String → Option String)
    (config_path : String) (w : World) (memo : String) :
    lnd_cli_main ⟨"invoice", some 0, memo⟩ env config_path w =
      lnd_cli_main ⟨"invoice", none, memo⟩ env config_path w ∧
    (lnd_cli_main ⟨"invoice", some 0, memo⟩ env config_path w).exitCode = 1 ∧
    (lnd_cli_main ⟨"invoice", some 0, memo⟩ env config_path w).events = [] :=
  ⟨rfl, rfl, rfl⟩

/-- C3: on a transport-level failure of the underlying HTTP call, the
exception that reaches the caller of _request is not the connectivity
error but an UnboundLocalError raised inside the except handler, because
the local variable named response was never assigned. -/
theorem request_transport_failure_raises_unbound_local :
    (_request clientD wConnRefused "POST" "/v1/invoices"
        (some (.obj [("value", .num 1000), ("memo", .str "test")]))).1 =
      .error (.unboundLocal "response") ∧
    (∀ m, PyExc.unboundLocal "response" ≠ PyExc.connectionError m) :=
  ⟨rfl, fun _ h => PyExc.noConfusion h⟩

/-- C6 counterexample: the string AB== is accepted by the base64 decoder
(it decodes to the single zero byte), yet re-encoding that byte produces
AA==, not the original string, so the round trip is not the identity on
every decodable base64 string. -/
theorem b64_roundtrip_counterexample :
    b64decode "AB==" = some [0] ∧
    Option.map b64encodeStr (b64decode "AB==") = some "AA==" ∧
    ("AA==" : String) ≠ "AB==" :=
  ⟨rfl, rfl, by decide⟩

/-- C6 amended: on canonical base64 input, that is on any string that is
the base64 encoding of some byte list, decoding and re-encoding reproduce
the string exactly. -/
theorem b64_roundtrip_canonical (s : String)
    (h : ∃ b : List Nat, (∀ x ∈ b, x < 256) ∧ b64encodeStr b = s) :
    Option.map b64encodeStr (b64decode s) = some s := by
  obtain ⟨b, hb, rfl⟩ := h
  rw [b64decode_encode b hb]
  rfl

theorem b64_roundtrip_canonical_witness :
    Option.map b64encodeStr (b64decode "AAECAw==") = some "AAECAw==" :=
  b64_roundtrip_canonical "AAECAw==" ⟨[0, 1, 2, 3], by decide, by decide⟩

/-- C7: with the node info endpoint answering alias testnode and version
0.17 and the invoice endpoint answering the given payment request and the
hash AAECAw==, the interactive tool run with amount 1000 and memo test
prints the connected line first and the hex hash 00010203 later, and
exits with status 0. -/
theorem interactive_mocked_scenario :
    (createInvoiceRun ⟨some 1000, some "test"⟩ [] envNone "cfg" wMock).stdout =
      ["Connected to LND node: testnode",
       "Creating invoice for 1000 sats...",
       "\n=== INVOICE CREATED ===",
       "Payment Request: lnbc1...",
       "R Hash (hex):    00010203",
       "Add Index:       N/A",
       "======================="] ∧
    (createInvoiceRun ⟨some 1000, some "test"⟩ [] envNone "cfg" wMock).exitCode = 0 :=
  ⟨rfl, rfl⟩

/-- C1: whenever the credential files are readable, add_invoice performs
exactly one network request, a POST to the invoices path, whose JSON body
is exactly the two-field object of value and memo with both arguments
passed through unchanged; no other network request happens, whatever the
network outcome, and the amount is not validated. -/
theorem add_invoice_sends_exactly_one_post (c : Client) (w : World)
    (amount : Int) (memo : String) (mb cb : List Nat)
    (hm : w.fs c.macaroon_path = .readable mb)
    (hc : w.fs c.cert_path = .readable cb) :
    netCalls (add_invoice c w amount memo).2.1 =
      [Event.netCall "POST" (c.api_endpoint ++ "/v1/invoices")
        (some (.obj [("value", .num amount), ("memo", .str memo)]))] := by
  simp only [add_invoice, _request, get_headers, requests_request, hm, hc]
  rcases hq : w.net "POST" (c.api_endpoint ++ "/v1/invoices")
      (some (.obj [("value", .num amount), ("memo", .str memo)])) with r | m
  · simp only [raise_for_status]
    split <;> simp [netCalls, List.filter]
  · simp [netCalls, List.filter, PyExc.isRequestException]

theorem add_invoice_sends_exactly_one_post_witness :
    netCalls (add_invoice clientD wConnRefused 1000 "test").2.1 =
      [Event.netCall "POST" "https://127.0.0.1:8083/v1/invoices"
        (some (.obj [("value", .num 1000), ("memo", .str "test")]))] :=
  add_invoice_sends_exactly_one_post clientD wConnRefused 1000 "test"
    [1, 2] [10] rfl rfl

/-- C4 counterexample: a response with status 304 has a non-2xx status, yet
_request returns its parsed body normally instead of raising, because
raise_for_status only raises for the 4xx and 5xx ranges. -/
theorem request_non2xx_counterexample :
    (_request clientD w304 "GET" "/v1/getinfo" none).1 = .ok (.obj []) ∧
    ¬(200 ≤ 304 ∧ 304 ≤ 299) :=
  ⟨rfl, by omega⟩

/-- C4 amended: for every response whose status lies in the 4xx or 5xx
range, _request raises an HTTP error rather than returning a value, and
the response body text is both carried by the raised error and emitted on
the error stream. -/
theorem request_4xx_5xx_raises_with_body (c : Client) (w : World)
    (method endpoint : String) (data : Option JVal) (r : HttpResponse)
    (mb cb : List Nat)
    (hm : w.fs c.macaroon_path = .readable mb)
    (hc : w.fs c.cert_path = .readable cb)
    (hr : w.net method (c.api_endpoint ++ endpoint) data = .response r)
    (h4 : 400 ≤ r.status) (h5 : r.status < 600) :
    (_request c w method endpoint data).1 =
      .error (.httpError r.status (dumps r.body)) ∧
    ("Response: " ++ dumps r.body) ∈ (_request c w method endpoint data).2.2 := by
  simp only [_request, get_headers, requests_request, hm, hc, hr, raise_for_status]
  rw [if_pos ⟨h4, h5⟩]
  exact ⟨rfl, by simp⟩

theorem request_4xx_5xx_raises_with_body_witness :
    (_request clientD w404 "GET" "/v1/getinfo" none).1 =
      .error (.httpError 404 (dumps (.obj [("message", .str "not found")]))) ∧
    ("Response: " ++ dumps (.obj [("message", .str "not found")])) ∈
      (_request clientD w404 "GET" "/v1/getinfo" none).2.2 :=
  request_4xx_5xx_raises_with_body clientD w404 "GET" "/v1/getinfo" none
    ⟨404, .obj [("message", .str "not found")]⟩ [1, 2] [10] rfl rfl rfl
    (by decide) (by decide)

/-- C5 counterexample: with a readable macaroon and a TLS certificate file
that exists but cannot be read, the requests existence check passes, a
network call is attempted, the TLS setup then fails as an SSLError, a
RequestException, and the buggy handler turns it into UnboundLocalError:
the caller receives no filesystem error and the failure is not before the
network call. -/
theorem unreadable_cert_counterexample :
    fsCertUnreadable "cfg/tls.cert" = .unreadable ∧
    (_request clientD wCertUnreadable "GET" "/v1/getinfo" none).1 =
      .error (.unboundLocal "response") ∧
    (PyExc.unboundLocal "response").isFilesystemError = false ∧
    netCalls (_request clientD wCertUnreadable "GET" "/v1/getinfo" none).2.1 =
      [.netCall "GET" "https://127.0.0.1:8083/v1/getinfo" none] :=
  ⟨rfl, rfl, rfl, rfl⟩

/-- C5 amended: if the macaroon file is missing or unreadable, or the TLS
certificate file is missing, any request issued through the client fails
with a filesystem error, no network call is attempted, and the error
propagates to the caller unrecovered; an existing-but-unreadable
certificate file is the exception, failing only after the connection
attempt and not with a filesystem error. -/
theorem credentials_fs_error_before_network (c : Client) (w : World)
    (method endpoint : String) (data : Option JVal)
    (h : w.fs c.macaroon_path = .absent ∨ w.fs c.macaroon_path = .unreadable ∨
         w.fs c.cert_path = .absent) :
    ∃ e, (_request c w method endpoint data).1 = .error e ∧
      e.isFilesystemError = true ∧
      netCalls (_request c w method endpoint data).2.1 = [] := by
  rcases h with h | h | h
  · refine ⟨.fsError c.macaroon_path, ?_, rfl, ?_⟩ <;>
      simp [_request, get_headers, h, netCalls]
  · refine ⟨.permissionError c.macaroon_path, ?_, rfl, ?_⟩ <;>
      simp [_request, get_headers, h, netCalls]
  · cases hm : w.fs c.macaroon_path with
    | absent =>
        refine ⟨.fsError c.macaroon_path, ?_, rfl, ?_⟩ <;>
          simp [_request, get_headers, hm, netCalls]
    | unreadable =>
        refine ⟨.permissionError c.macaroon_path, ?_, rfl, ?_⟩ <;>
          simp [_request, get_headers, hm, netCalls]
    | readable mb =>
        refine ⟨.certBundleError c.cert_path, ?_, rfl, ?_⟩ <;>
          simp [_request, get_headers, requests_request, hm, h, netCalls,
            PyExc.isRequestException]

theorem credentials_fs_error_before_network_witness :
    ∃ e, (_request clientD wNoFiles "GET" "/v1/getinfo" none).1 = .error e ∧
      e.isFilesystemError = true ∧
      netCalls (_request clientD wNoFiles "GET" "/v1/getinfo" none).2.1 = [] :=
  credentials_fs_error_before_network clientD wNoFiles "GET" "/v1/getinfo"
    none (Or.inl rfl)

/-- C9 counterexample: a run of the interactive tool where the amount is
prompted successfully but standard input ends before the memo prompt makes
input() raise EOFError outside every handler, so the process exits with
status 1, not 0. -/
theorem interactive_eof_exit_nonzero :
    (createInvoiceRun ⟨none, none⟩ ["100"] envNone "cfg" wConnRefused).exitCode = 1 ∧
    (create_invoice_main ⟨none, none⟩ ["100"] envNone "cfg" wConnRefused).2 =
      some .eofError :=
  ⟨rfl, rfl⟩

/-- C9 amended: whenever the prompting phase completes without an
end-of-file (the amount and memo are given or read, with an empty or
non-numeric amount handled locally), the interactive tool exits with
status 0, and any exception raised by the client flow is caught and
printed to standard output as a generic error line. -/
theorem interactive_exit_zero_when_prompts_complete (args : InvArgs)
    (stdin : List String) (env : String → Option String) (config_path : String)
    (w : World) (h : isOkE (promptPhase args stdin) = true) :
    (createInvoiceRun args stdin env config_path w).exitCode = 0 ∧
    (∀ amt memo printed rest e,
      promptPhase args stdin = .ok (some (amt, memo), printed, rest) →
      (invoiceFlow amt memo env config_path w).2 = some e →
      ("\nError: " ++ e.message) ∈
        (createInvoiceRun args stdin env config_path w).stdout) := by
  constructor
  · rcases hp : promptPhase args stdin with e | ⟨opt, printed0, rest0⟩
    · rw [hp] at h
      simp [isOkE] at h
    · rcases opt with _ | ⟨amt, memo⟩
      · simp [createInvoiceRun, create_invoice_main, hp]
      · rcases hf : invoiceFlow amt memo env config_path w with ⟨lines, exc⟩
        rcases exc with _ | e <;>
          simp [createInvoiceRun, create_invoice_main, hp, hf]
  · intro amt memo printed rest e hpp hinv
    rcases hf : invoiceFlow amt memo env config_path w with ⟨lines, exc⟩
    rw [hf] at hinv
    simp only at hinv
    subst hinv
    simp [createInvoiceRun, create_invoice_main, hpp, hf]

theorem interactive_exit_zero_when_prompts_complete_witness :
    (createInvoiceRun ⟨some 5, some "m"⟩ [] envNone "cfg" wConnRefused).exitCode = 0 ∧
    ("\nError: " ++ (PyExc.unboundLocal "response").message) ∈
      (createInvoiceRun ⟨some 5, some "m"⟩ [] envNone "cfg" wConnRefused).stdout :=
  ⟨(interactive_exit_zero_when_prompts_complete ⟨some 5, some "m"⟩ [] envNone
      "cfg" wConnRefused rfl).1,
   (interactive_exit_zero_when_prompts_complete ⟨some 5, some "m"⟩ [] envNone
      "cfg" wConnRefused rfl).2 5 "m" [] [] (.unboundLocal "response") rfl rfl⟩
